import Mathlib

/-!
Shallow embedding of the agentman cluster-membership engine
(src/agentman.go, src/multierr.go).

Go machine state is modelled by explicit records; pointer-mutating
methods become pure functions returning the updated record.  Calls into
the external consul provisioning service (testutil.NewTestServerConfig,
api client binding, Agent().Join, server.Stop) are modelled by oracle
environments supplying the outcome of each external call.  Go panics
(defunct handles, out-of-range slice indexing) are modelled by an
explicit `Panic` error channel.
-/

namespace Agentman

/-- A Go error value.  Plain errors carry their message; the distinct
`fmt.Errorf` sites of Grow are kept as distinct constructors so error
kinds remain distinguishable; `multi` is the `MultiErr` aggregate whose
list holds the added non-nil errors (MultiErr.Add ignores nils, so
MultiErr.Size counts exactly the non-nil additions). -/
inductive GoErr where
  | msg : String → GoErr
  | capacity : String → Nat → Nat → GoErr
  | createFail : String → Nat → GoErr → GoErr
  | joinFail : String → Nat → GoErr → GoErr
  | multi : List GoErr → GoErr
deriving Repr

/-- A Go runtime panic: the defunct-handle panics raised by the
accessors, and the index-out-of-range panic of unguarded slice
indexing. -/
inductive Panic where
  | defunct : String → Panic
  | indexOutOfRange : Panic
deriving Repr, DecidableEq

/-- The external consul test server behind an instance
(testutil.TestServer): its reported addresses, opaque http client and
config handles, and the error its Stop() teardown call will report. -/
structure TestServer where
  httpAddr : String
  httpsAddr : String
  lanAddr : String
  wanAddr : String
  httpClient : Nat
  config : Nat
  stopErr : Option GoErr
deriving Repr

/-- TestInstance: `server`/`client` are the nilable pointers of the Go
struct (`none` = nil).  `cbNum` is a ghost field recording the `num`
index the cluster config callback was invoked with at creation, and
`teardowns` is a ghost counter of how many times `server.Stop()` was
actually invoked. -/
structure TestInstance where
  name : String
  cbNum : Nat
  server : Option TestServer
  client : Option Nat
  teardowns : Nat
deriving Repr

def defunctInstanceMsg (name : String) : String :=
  "Instance " ++ name ++ " is defunct"

def TestInstance.Stopped (ti : TestInstance) : Bool :=
  ti.server.isNone

def TestInstance.HTTPAddr (ti : TestInstance) : Except Panic String :=
  match ti.server with
  | none => .error (.defunct (defunctInstanceMsg ti.name))
  | some s => .ok s.httpAddr

def TestInstance.HTTPSAddr (ti : TestInstance) : Except Panic String :=
  match ti.server with
  | none => .error (.defunct (defunctInstanceMsg ti.name))
  | some s => .ok s.httpsAddr

def TestInstance.LANAddr (ti : TestInstance) : Except Panic String :=
  match ti.server with
  | none => .error (.defunct (defunctInstanceMsg ti.name))
  | some s => .ok s.lanAddr

def TestInstance.WANAddr (ti : TestInstance) : Except Panic String :=
  match ti.server with
  | none => .error (.defunct (defunctInstanceMsg ti.name))
  | some s => .ok s.wanAddr

def TestInstance.HTTPClient (ti : TestInstance) : Except Panic Nat :=
  match ti.server with
  | none => .error (.defunct (defunctInstanceMsg ti.name))
  | some s => .ok s.httpClient

def TestInstance.APIClient (ti : TestInstance) : Except Panic (Option Nat) :=
  match ti.server with
  | none => .error (.defunct (defunctInstanceMsg ti.name))
  | _ => .ok ti.client

def TestInstance.Config (ti : TestInstance) : Except Panic Nat :=
  match ti.server with
  | none => .error (.defunct (defunctInstanceMsg ti.name))
  | some s => .ok s.config

/-- TestInstance.Stop: nil server means already defunct (return nil, no
work); otherwise tear down the server, nil out server and client, and
return the teardown error. -/
def TestInstance.Stop (ti : TestInstance) : Option GoErr × TestInstance :=
  match ti.server with
  | none => (none, ti)
  | some s =>
    (s.stopErr, { ti with server := none, client := none, teardowns := ti.teardowns + 1 })

/-- TestCluster: the `size` field set at construction (never updated
afterwards, matching the Go struct), the ordered member slice, and the
one-way `stopped` flag. -/
structure TestCluster where
  name : String
  size : Nat
  instances : List TestInstance
  stopped : Bool
deriving Repr

def defunctClusterMsg (name : String) : String :=
  "Cluster " ++ name ++ " is defunct"

def TestCluster.Size (cl : TestCluster) : Nat :=
  cl.instances.length

def TestCluster.Stopped (cl : TestCluster) : Bool :=
  cl.stopped

/-- The `for i := l - 1; i >= 0; i--` stop loop of TestCluster.stop:
stops every instance of the list, visiting the tail first, collecting
the non-nil errors in visit order (highest index first) as MultiErr.Add
does. -/
def stopInstListRev : List TestInstance → List GoErr × List TestInstance
  | [] => ([], [])
  | ti :: rest =>
    let p := stopInstListRev rest
    let q := ti.Stop
    (p.1 ++ (match q.1 with | none => [] | some e => [e]), q.2 :: p.2)

/-- The private TestCluster.stop: returns nil immediately when there are
zero members (note: without setting the stopped flag), else stops every
member tail-first, sets the stopped flag, and returns the MultiErr when
any member stop failed. -/
def TestCluster.stopPriv (cl : TestCluster) : Option GoErr × TestCluster :=
  if cl.instances.length = 0 then (none, cl)
  else
    let p := stopInstListRev cl.instances
    let cl2 : TestCluster := { cl with instances := p.2, stopped := true }
    if p.1.length > 0 then (some (GoErr.multi p.1), cl2) else (none, cl2)

/-- TestCluster.Stop: no-op returning nil when already stopped, else the
private stop. -/
def TestCluster.Stop (cl : TestCluster) : Option GoErr × TestCluster :=
  if cl.stopped then (none, cl) else cl.stopPriv

/-- TestCluster.Instance: panics with the defunct message when the
cluster is stopped, otherwise performs unguarded slice indexing
(index out of range panic when num is not below the length). -/
def TestCluster.Instance (cl : TestCluster) (num : Nat) : Except Panic TestInstance :=
  if cl.stopped then .error (.defunct (defunctClusterMsg cl.name))
  else
    match cl.instances.get? num with
    | some ti => .ok ti
    | none => .error .indexOutOfRange

/-- Result of Shrink: the returned error, the updated cluster, and (as a
ghost observation) the final states of the instances that were dropped
from the member slice, in slice order. -/
structure ShrinkOut where
  err : Option GoErr
  cluster : TestCluster
  removed : List TestInstance
deriving Repr

/-- TestCluster.Shrink.  With l = len(instances): when n > l it returns
cl.stop() (the member slice is not truncated).  Otherwise, with
diff = l - n, the loop `for i := l - 1; i > diff; i--` stops the
members at indices diff+1 .. l-1 only (the member at index diff is
dropped by the truncation without being stopped), then the slice is
truncated to its first diff members.  When l = 0 and n = 0 the loop
head `uint8(l - 1)` wraps to 255 and the body indexes an empty slice:
an index-out-of-range panic. -/
def TestCluster.Shrink (cl : TestCluster) (n : Nat) : Except Panic ShrinkOut :=
  if n > cl.instances.length then
    let p := cl.stopPriv
    .ok { err := p.1, cluster := p.2, removed := [] }
  else if cl.instances.length = 0 then
    .error Panic.indexOutOfRange
  else
    let diff := cl.instances.length - n
    match cl.instances.drop diff with
    | [] => .ok { err := none, cluster := cl, removed := [] }
    | leaked :: toStop =>
      let p := stopInstListRev toStop
      .ok { err := if p.1.length > 0 then some (GoErr.multi p.1) else none,
            cluster := { cl with instances := cl.instances.take diff },
            removed := leaked :: p.2 }

/-- Oracle environment for the external provisioning service during
cluster construction and growth: for the node at a given offset,
`create` is the combined outcome of NewTestInstance (server provisioning
plus client binding, an error when either failed), and `join` is the
outcome of the Agent().Join call issued by node 0 for that node.  Each call of one
Grow uses a distinct offset, so indexing the oracle by offset captures
the external nondeterminism. -/
structure ClusterEnv where
  create : Nat → Except GoErr TestServer
  join : Nat → Option GoErr

/-- The instance built by Grow for a given offset: named
`<cluster>-<offset>`, with the cluster config callback invoked with
`num = offset` (recorded in the ghost field cbNum), holding the
provisioned server and a fresh api client. -/
def growInstance (clName : String) (offset : Nat) (srv : TestServer) : TestInstance :=
  { name := clName ++ "-" ++ toString offset
    cbNum := offset
    server := some srv
    client := some 0
    teardowns := 0 }

/-- Result of Grow: the returned error, the updated cluster, and (as a
ghost observation) the final state of a freshly created node that
failed to join, if any. -/
structure GrowOut where
  err : Option GoErr
  cluster : TestCluster
  failed : Option TestInstance
deriving Repr

/-- The `for i := 0; i < n; i++` loop of TestCluster.Grow, with `k`
nodes remaining and the next node at `offset`.  Per iteration: create
the instance (on failure, return the createFail error with nothing
added); evaluate `cl.instances[0].APIClient()` (index-out-of-range
panic on an empty slice, defunct panic when member 0 has a nil
server); on join failure, stop the fresh instance and return the
joinFail error without appending it; on success append and continue. -/
def growLoop (clName : String) (env : ClusterEnv) :
    TestCluster → Nat → Nat → Except Panic GrowOut
  | cl, _, 0 => .ok { err := none, cluster := cl, failed := none }
  | cl, offset, k + 1 =>
    match env.create offset with
    | .error e => .ok { err := some (.createFail clName offset e), cluster := cl, failed := none }
    | .ok srv =>
      match cl.instances.head? with
      | none => .error .indexOutOfRange
      | some i0 =>
        if i0.server.isNone then .error (.defunct (defunctInstanceMsg i0.name))
        else
          match env.join offset with
          | some e =>
            .ok { err := some (.joinFail clName offset e), cluster := cl,
                  failed := some ((growInstance clName offset srv).Stop).2 }
          | none =>
            growLoop clName env
              { cl with instances := cl.instances ++ [growInstance clName offset srv] }
              (offset + 1) k

/-- TestCluster.Grow: panics when the cluster is stopped; returns the
capacity error, leaving the cluster untouched, when current + n would
exceed math.MaxUint8 = 255; otherwise runs the growth loop from offset
current. -/
def TestCluster.Grow (cl : TestCluster) (n : Nat) (env : ClusterEnv) : Except Panic GrowOut :=
  if cl.stopped then .error (.defunct (defunctClusterMsg cl.name))
  else if cl.instances.length + n > 255 then
    .ok { err := some (.capacity cl.name cl.instances.length n), cluster := cl, failed := none }
  else growLoop cl.name env cl cl.instances.length n

/-- NewTestCluster: size 0 is rejected; node 0 is created as the
bootstrap, its config callback invoked with index 0; size 1 returns
immediately; otherwise Grow(size-1) runs, and on its failure every
created instance is stopped in reverse order (an unobservable cleanup
of the discarded cluster) and the error is returned. -/
def NewTestCluster (name : String) (size : Nat) (env : ClusterEnv) :
    Except Panic (Except GoErr TestCluster) :=
  if size = 0 then .ok (.error (.msg "size must be at least 1"))
  else
    match env.create 0 with
    | .error e => .ok (.error e)
    | .ok srv =>
      let cl : TestCluster :=
        { name := name, size := size, instances := [growInstance name 0 srv], stopped := false }
      if size = 1 then .ok (.ok cl)
      else
        match cl.Grow (size - 1) env with
        | .error p => .error p
        | .ok gout =>
          match gout.err with
          | some e => .ok (.error e)
          | none => .ok (.ok gout.cluster)

/-- The AgentMan registry: its two maps, modelled as association lists
(one concrete iteration order of the Go maps). -/
structure AgentMan where
  singles : List (String × TestInstance)
  clusters : List (String × TestCluster)

/-- The per-single stop fan-out of AgentMan.Stop: stops each held
single in iteration order, collecting the non-nil errors (MultiErr.Add
ignores nils) and the final instance states. -/
def stopSinglesList : List (String × TestInstance) → List GoErr × List TestInstance
  | [] => ([], [])
  | (_, ti) :: rest =>
    let q := ti.Stop
    let p := stopSinglesList rest
    ((match q.1 with | none => [] | some e => [e]) ++ p.1, q.2 :: p.2)

/-- The per-cluster stop fan-out of AgentMan.Stop. -/
def stopClustersList : List (String × TestCluster) → List GoErr × List TestCluster
  | [] => ([], [])
  | (_, cl) :: rest =>
    let q := cl.Stop
    let p := stopClustersList rest
    ((match q.1 with | none => [] | some e => [e]) ++ p.1, q.2 :: p.2)

/-- Result of AgentMan.Stop: the returned error, the cleared registry,
and (as ghost observations) the final states of every stopped single
and cluster. -/
structure StopAllOut where
  err : Option GoErr
  registry : AgentMan
  singlesFinal : List TestInstance
  clustersFinal : List TestCluster

/-- AgentMan.Stop: stops every held single and every held cluster (two
concurrent groups in Go; their MultiErr additions commute, modelled
here with the errors of the singles group first), clears both maps
unconditionally, and returns the MultiErr when it holds any error. -/
def AgentMan.Stop (am : AgentMan) : StopAllOut :=
  let ps := stopSinglesList am.singles
  let pc := stopClustersList am.clusters
  let errs := ps.1 ++ pc.1
  { err := if errs.length > 0 then some (GoErr.multi errs) else none
    registry := { singles := [], clusters := [] }
    singlesFinal := ps.2
    clustersFinal := pc.2 }

/-- The number of held handles whose stop call reports a failure. -/
def failCount (am : AgentMan) : Nat :=
  (am.singles.countP fun p => ((p.2.Stop).1).isSome) +
    (am.clusters.countP fun p => (((p.2).Stop).1).isSome)

/-- Whether an accessor result is the fatal defunct panic. -/
def isDefunctPanic {α : Type} : Except Panic α → Bool
  | .error (.defunct _) => true
  | _ => false

/-! Concrete sample values used to evaluate the model on explicit
inputs. -/

def defaultServer : TestServer :=
  { httpAddr := "h", httpsAddr := "hs", lanAddr := "l", wanAddr := "w",
    httpClient := 0, config := 0, stopErr := none }

def liveInst : TestInstance :=
  { name := "c-0", cbNum := 0, server := some defaultServer, client := some 0, teardowns := 0 }

def oneCl : TestCluster :=
  { name := "c", size := 1, instances := [liveInst], stopped := false }

def deadInst : TestInstance :=
  { name := "d", cbNum := 0, server := none, client := none, teardowns := 1 }

def stoppedCl : TestCluster :=
  { name := "sc", size := 1, instances := [], stopped := true }

def envOk : ClusterEnv :=
  { create := fun _ => .ok defaultServer, join := fun _ => none }

/-! Helper lemmas. -/

/-- Stopping an instance always leaves it defunct, whether or not
teardown errored and whether or not it was already defunct. -/
theorem TestInstance.stop_stopped (ti : TestInstance) : ((ti.Stop).2).Stopped = true := by
  cases h : ti.server <;> simp [TestInstance.Stop, TestInstance.Stopped, h]

theorem stopInstListRev_len (xs : List TestInstance) :
    ((stopInstListRev xs).2).length = xs.length := by
  induction xs with
  | nil => simp [stopInstListRev]
  | cons a t ih => simp [stopInstListRev, ih]

theorem stopInstListRev_stopped (xs : List TestInstance) :
    ∀ ti ∈ (stopInstListRev xs).2, ti.Stopped = true := by
  induction xs with
  | nil => simp [stopInstListRev]
  | cons a t ih =>
    intro ti hti
    simp only [stopInstListRev, List.mem_cons] at hti
    rcases hti with h | h
    · subst h; exact TestInstance.stop_stopped a
    · exact ih ti h

theorem stopPriv_snd (cl : TestCluster) (h : cl.instances ≠ []) :
    (cl.stopPriv).2 =
      { cl with instances := (stopInstListRev cl.instances).2, stopped := true } := by
  have hlen : ¬ cl.instances.length = 0 := fun hh => h (List.length_eq_zero.mp hh)
  by_cases hp : ((stopInstListRev cl.instances).1).length > 0 <;>
    simp [TestCluster.stopPriv, hlen, hp]

/-- C7: TestInstance.Stop on an already-defunct handle returns nil and
changes nothing; on a live handle it tears the server down exactly once
and clears server and client regardless of the teardown error, so the
handle is always defunct after Stop returns. -/
theorem C7_instance_stop (ti : TestInstance) :
    (((ti.Stop).2).Stopped = true) ∧
    (ti.Stopped = true → ti.Stop = (none, ti)) ∧
    (∀ s, ti.server = some s →
      ti.Stop = (s.stopErr,
        { ti with server := none, client := none, teardowns := ti.teardowns + 1 })) := by
  refine ⟨TestInstance.stop_stopped ti, ?_, ?_⟩
  · intro h
    have hn : ti.server = none := Option.isNone_iff_eq_none.mp h
    simp [TestInstance.Stop, hn]
  · intro s h
    simp [TestInstance.Stop, h]

/-- C7 witness: stopping the concrete live instance tears it down once
and clears server and client. -/
theorem C7_instance_stop_w :
    TestInstance.Stop liveInst =
      (none, { name := "c-0", cbNum := 0, server := none, client := none, teardowns := 1 }) :=
  (C7_instance_stop liveInst).2.2 defaultServer rfl

/-- C9: every accessor of a defunct node handle raises the fatal
defunct panic, and Instance on a stopped cluster raises it for every
index. -/
theorem C9_defunct_accessors (ti : TestInstance) (cl : TestCluster) (num : Nat)
    (hti : ti.Stopped = true) (hcl : cl.Stopped = true) :
    isDefunctPanic ti.HTTPAddr = true ∧ isDefunctPanic ti.HTTPSAddr = true ∧
    isDefunctPanic ti.LANAddr = true ∧ isDefunctPanic ti.WANAddr = true ∧
    isDefunctPanic ti.HTTPClient = true ∧ isDefunctPanic ti.APIClient = true ∧
    isDefunctPanic ti.Config = true ∧ isDefunctPanic (cl.Instance num) = true := by
  have h : ti.server = none := Option.isNone_iff_eq_none.mp hti
  have h2 : cl.stopped = true := hcl
  simp [TestInstance.HTTPAddr, TestInstance.HTTPSAddr, TestInstance.LANAddr,
    TestInstance.WANAddr, TestInstance.HTTPClient, TestInstance.APIClient,
    TestInstance.Config, TestCluster.Instance, isDefunctPanic, h, h2]

/-- C9 witness: the concrete defunct instance and stopped cluster raise
the defunct panic on every accessor. -/
theorem C9_defunct_accessors_w :
    isDefunctPanic deadInst.HTTPAddr = true ∧ isDefunctPanic deadInst.HTTPSAddr = true ∧
    isDefunctPanic deadInst.LANAddr = true ∧ isDefunctPanic deadInst.WANAddr = true ∧
    isDefunctPanic deadInst.HTTPClient = true ∧ isDefunctPanic deadInst.APIClient = true ∧
    isDefunctPanic deadInst.Config = true ∧ isDefunctPanic (stoppedCl.Instance 7) = true :=
  C9_defunct_accessors deadInst stoppedCl 7 rfl rfl

/-- C10: on a non-stopped cluster, Instance performs unguarded
indexing: it returns the member exactly when num is a valid index, and
for num at or beyond the size it is the fatal index-out-of-range
panic. -/
theorem C10_instance_indexing (cl : TestCluster) (num : Nat) (h : cl.Stopped = false) :
    (∀ ti, cl.instances[num]? = some ti → cl.Instance num = .ok ti) ∧
    (cl.Size ≤ num → cl.Instance num = .error Panic.indexOutOfRange) ∧
    (num < cl.Size → ∃ ti, cl.instances[num]? = some ti ∧ cl.Instance num = .ok ti) := by
  have h2 : cl.stopped = false := h
  refine ⟨?_, ?_, ?_⟩
  · intro ti hti
    simp [TestCluster.Instance, h2, hti]
  · intro hle
    have hn : cl.instances[num]? = none := List.getElem?_eq_none hle
    simp [TestCluster.Instance, h2, hn]
  · intro hlt
    have hg : cl.instances[num]? = some (cl.instances.get ⟨num, hlt⟩) :=
      List.getElem?_eq_getElem hlt
    exact ⟨_, hg, by simp [TestCluster.Instance, h2, hg]⟩

/-- C10 witness: indexing the concrete one-member active cluster at 5
is the index-out-of-range panic. -/
theorem C10_instance_indexing_w :
    TestCluster.Instance oneCl 5 = .error Panic.indexOutOfRange :=
  (C10_instance_indexing oneCl 5 rfl).2.1 (by decide)

/-- C5: Grow on a non-stopped cluster whose resulting membership would
exceed 255 returns the capacity error and leaves the cluster completely
unchanged, with nothing created, joined, or stopped. -/
theorem C5_grow_capacity (cl : TestCluster) (env : ClusterEnv) (n : Nat)
    (h1 : cl.Stopped = false) (h2 : 255 < cl.Size + n) :
    cl.Grow n env =
      .ok { err := some (GoErr.capacity cl.name cl.Size n), cluster := cl, failed := none } := by
  have h1a : cl.stopped = false := h1
  have h2a : cl.instances.length + n > 255 := h2
  simp [TestCluster.Grow, TestCluster.Size, h1a, h2a]

/-- C5 witness: growing the concrete one-member cluster by 255 fails
with the capacity error and changes nothing. -/
theorem C5_grow_capacity_w :
    TestCluster.Grow oneCl 255 envOk =
      .ok { err := some (GoErr.capacity "c" 1 255), cluster := oneCl, failed := none } :=
  C5_grow_capacity oneCl envOk 255 rfl (by decide)

/-- The stopped flag of the cluster left by Shrink, when Shrink did
not panic. -/
def shrinkStoppedAfter (cl : TestCluster) (n : Nat) : Option Bool :=
  match cl.Shrink n with
  | .ok out => some out.cluster.stopped
  | .error _ => none

/-- The size of the cluster left by Shrink, when Shrink did not
panic. -/
def shrinkSizeAfter (cl : TestCluster) (n : Nat) : Option Nat :=
  match cl.Shrink n with
  | .ok out => some out.cluster.Size
  | .error _ => none

/-- C1 counterexample: for the concrete one-member active cluster,
Shrink(1) (n = size) leaves Stopped() false, and Shrink(2) (n > size)
leaves Size() = 1 — in neither case does Shrink(n ≥ size) produce both
Stopped() = true and Size() = 0 as the claim states. -/
theorem C1_shrink_stop_cex :
    ¬ (shrinkStoppedAfter oneCl 1 = some true ∧ shrinkSizeAfter oneCl 1 = some 0) ∧
    ¬ (shrinkStoppedAfter oneCl 2 = some true ∧ shrinkSizeAfter oneCl 2 = some 0) := by
  decide

/-- C1 amended: on a non-stopped cluster with at least one member,
Shrink(n) with n strictly greater than the size degenerates into the
full cluster stop: every member is stopped and Stopped() becomes true,
but the member sequence is not truncated, so Size() stays s; with
n equal to the size, the truncation path runs instead: Size() becomes 0
while Stopped() remains false. -/
theorem C1_shrink_stop_amended (cl : TestCluster) (n : Nat)
    (h1 : cl.Stopped = false) (h2 : cl.instances ≠ []) :
    (cl.Size < n → ∃ out, cl.Shrink n = .ok out ∧ out.cluster.Stopped = true ∧
      out.cluster.Size = cl.Size ∧ ∀ ti ∈ out.cluster.instances, ti.Stopped = true) ∧
    (n = cl.Size → ∃ out, cl.Shrink n = .ok out ∧ out.cluster.Stopped = false ∧
      out.cluster.Size = 0) := by
  have h1a : cl.stopped = false := h1
  have hlen : ¬ cl.instances.length = 0 := fun hh => h2 (List.length_eq_zero.mp hh)
  constructor
  · intro hlt
    have hgt : n > cl.instances.length := hlt
    rw [TestCluster.Shrink, if_pos hgt]
    refine ⟨_, rfl, ?_, ?_, ?_⟩
    · rw [stopPriv_snd cl h2]
      rfl
    · rw [stopPriv_snd cl h2]
      simp [TestCluster.Size, stopInstListRev_len]
    · rw [stopPriv_snd cl h2]
      exact stopInstListRev_stopped cl.instances
  · intro hn
    have hngt : ¬ n > cl.instances.length := by
      simp [TestCluster.Size] at hn
      omega
    obtain ⟨a, t, hc⟩ := List.exists_cons_of_ne_nil h2
    have hdiff : cl.instances.length - n = 0 := by
      simp [TestCluster.Size] at hn
      omega
    rw [TestCluster.Shrink, if_neg hngt, if_neg hlen]
    rw [hdiff, hc]
    simp only [List.drop_zero]
    refine ⟨_, rfl, ?_, ?_⟩
    · simpa [TestCluster.Stopped] using h1a
    · simp [TestCluster.Size]

/-- C1 witness: the concrete one-member cluster shrunk by 2 takes the
full-stop path and ends with the stopped flag set. -/
theorem C1_shrink_stop_amended_w : shrinkStoppedAfter oneCl 2 = some true := by
  obtain ⟨out, ho, hs, _, _⟩ :=
    (C1_shrink_stop_amended oneCl 2 rfl (List.cons_ne_nil liveInst [])).1 (by decide)
  unfold shrinkStoppedAfter
  rw [ho]
  simpa [TestCluster.Stopped] using hs

def instB : TestInstance :=
  { name := "c-1", cbNum := 1, server := some defaultServer, client := some 0, teardowns := 0 }

def twoCl : TestCluster :=
  { name := "c", size := 2, instances := [liveInst, instB], stopped := false }

/-- C2 evaluation at the failing input: shrinking the concrete
two-member active cluster by 1 truncates the member sequence to size 1
as intended, but the single removed trailing member is dropped without
its Stop ever being invoked (its server is still live), because the
stop loop runs only for indices strictly above size - n. -/
theorem C2_shrink_leak :
    twoCl.Shrink 1 =
      .ok { err := none,
            cluster := { name := "c", size := 2, instances := [liveInst], stopped := false },
            removed := [instB] } ∧
    instB.Stopped = false :=
  ⟨rfl, rfl⟩

/-- An environment-driven run showing the C3 failing input: create a
cluster of size 1, shrink it by its full size (leaving zero members and
the stopped flag false), then call Stop. -/
def c3chain : Option (Option GoErr × TestCluster) :=
  match NewTestCluster "c3" 1 envOk with
  | .ok (.ok cl) =>
    match cl.Shrink 1 with
    | .ok out => some out.cluster.Stop
    | .error _ => none
  | _ => none

/-- C3 evaluation at the failing input: after creating a size-1
cluster, shrinking it to zero members, and calling Stop(), the call
returns nil yet the stopped flag is still false — Stop() on a
zero-member cluster returns before marking the cluster stopped,
contradicting the claim (and the doc comment on Stop itself) that the cluster
is defunct once Stop has been called. -/
theorem C3_stop_no_mark :
    c3chain.map (fun p => ((p.2).Stopped, (p.1).isNone)) = some (false, true) := by
  decide

theorem stopSinglesList_spec (xs : List (String × TestInstance)) :
    (stopSinglesList xs).2 = xs.map (fun p => ((p.2).Stop).2) ∧
    ((stopSinglesList xs).1).length = xs.countP (fun p => (((p.2).Stop).1).isSome) := by
  induction xs with
  | nil => simp [stopSinglesList]
  | cons a t ih =>
    obtain ⟨ih1, ih2⟩ := ih
    cases h : ((a.2).Stop).1 <;>
      simp [stopSinglesList, h, ih1, ih2, List.countP_cons]

theorem stopClustersList_spec (xs : List (String × TestCluster)) :
    (stopClustersList xs).2 = xs.map (fun p => ((p.2).Stop).2) ∧
    ((stopClustersList xs).1).length = xs.countP (fun p => (((p.2).Stop).1).isSome) := by
  induction xs with
  | nil => simp [stopClustersList]
  | cons a t ih =>
    obtain ⟨ih1, ih2⟩ := ih
    cases h : ((a.2).Stop).1 <;>
      simp [stopClustersList, h, ih1, ih2, List.countP_cons]

/-- C8: AgentMan.Stop invokes Stop on every held single and every held
cluster, leaves both registry maps empty unconditionally, every stopped
single ends defunct, the returned aggregate holds exactly one sub-error
per handle whose stop failed (nil results are not counted), and nil is
returned when no stop failed. -/
theorem C8_stop_all (am : AgentMan) :
    ((am.Stop).registry).singles = [] ∧
    ((am.Stop).registry).clusters = [] ∧
    (am.Stop).singlesFinal = am.singles.map (fun p => ((p.2).Stop).2) ∧
    (am.Stop).clustersFinal = am.clusters.map (fun p => ((p.2).Stop).2) ∧
    (∀ ti ∈ (am.Stop).singlesFinal, ti.Stopped = true) ∧
    ((am.Stop).err = none ↔ failCount am = 0) ∧
    (∀ l, (am.Stop).err = some (GoErr.multi l) → l.length = failCount am) ∧
    (failCount am ≠ 0 →
      ∃ l, (am.Stop).err = some (GoErr.multi l) ∧ l.length = failCount am) := by
  have hs := stopSinglesList_spec am.singles
  have hc := stopClustersList_spec am.clusters
  have hlen : ((stopSinglesList am.singles).1 ++ (stopClustersList am.clusters).1).length
      = failCount am := by
    simp [List.length_append, hs.2, hc.2, failCount]
  have hif : (am.Stop).err =
      if ((stopSinglesList am.singles).1 ++ (stopClustersList am.clusters).1).length > 0
      then some (GoErr.multi
        ((stopSinglesList am.singles).1 ++ (stopClustersList am.clusters).1))
      else none := rfl
  refine ⟨rfl, rfl, hs.1, hc.1, ?_, ?_, ?_, ?_⟩
  · intro ti hti
    rw [show (am.Stop).singlesFinal = (stopSinglesList am.singles).2 from rfl, hs.1] at hti
    obtain ⟨p, _, hp⟩ := List.mem_map.mp hti
    rw [← hp]
    exact TestInstance.stop_stopped (p.2)
  · by_cases hp :
        ((stopSinglesList am.singles).1 ++ (stopClustersList am.clusters).1).length > 0
    · rw [hif, if_pos hp]
      constructor
      · intro he
        exact Option.noConfusion he
      · intro h0
        exact absurd h0 (by omega)
    · rw [hif, if_neg hp]
      constructor
      · intro _
        omega
      · intro _
        rfl
  · intro l hl
    rw [hif] at hl
    by_cases hp :
        ((stopSinglesList am.singles).1 ++ (stopClustersList am.clusters).1).length > 0
    · rw [if_pos hp] at hl
      simp only [Option.some.injEq, GoErr.multi.injEq] at hl
      rw [← hl]
      exact hlen
    · rw [if_neg hp] at hl
      exact Option.noConfusion hl
  · intro hne
    have hp :
        ((stopSinglesList am.singles).1 ++ (stopClustersList am.clusters).1).length > 0 := by
      omega
    exact ⟨(stopSinglesList am.singles).1 ++ (stopClustersList am.clusters).1,
      by rw [hif, if_pos hp], hlen⟩

def failServer : TestServer :=
  { defaultServer with stopErr := some (GoErr.msg "boom") }

def failInst : TestInstance :=
  { name := "f", cbNum := 0, server := some failServer, client := some 0, teardowns := 0 }

def amW : AgentMan := { singles := [("f", failInst)], clusters := [] }

/-- C8 witness: a registry holding one single whose teardown fails ends
with empty maps and an aggregate holding exactly that one failure. -/
theorem C8_stop_all_w :
    ((amW.Stop).registry).singles = [] ∧
    (amW.Stop).err = some (GoErr.multi [GoErr.msg "boom"]) ∧
    (1 : Nat) = failCount amW := by
  refine ⟨(C8_stop_all amW).1, rfl, ?_⟩
  exact (C8_stop_all amW).2.2.2.2.2.2.1 [GoErr.msg "boom"] rfl

/-- A successful growth loop (no error reported) appends exactly one
member per remaining step and preserves the head member, the stopped
flag, and the name and size fields. -/
theorem growLoop_none (clName : String) (env : ClusterEnv) :
    ∀ (k : Nat) (cl : TestCluster) (offset : Nat) (out : GrowOut),
      growLoop clName env cl offset k = .ok out → out.err = none →
      out.cluster.instances.length = cl.instances.length + k ∧
      out.cluster.instances.head? = cl.instances.head? ∧
      out.cluster.stopped = cl.stopped ∧
      out.cluster.name = cl.name ∧
      out.cluster.size = cl.size := by
  intro k
  induction k with
  | zero =>
    intro cl offset out h hnone
    rw [growLoop] at h
    simp only [Except.ok.injEq] at h
    subst h
    simp
  | succ k ih =>
    intro cl offset out h hnone
    rw [growLoop] at h
    cases hcr : env.create offset with
    | error e =>
      simp only [hcr] at h
      simp only [Except.ok.injEq] at h
      subst h
      simp at hnone
    | ok srv =>
      simp only [hcr] at h
      cases hh : cl.instances.head? with
      | none =>
        simp only [hh] at h
        exact Except.noConfusion h
      | some i0 =>
        simp only [hh] at h
        by_cases hn : i0.server.isNone = true
        · rw [if_pos hn] at h
          exact Except.noConfusion h
        · rw [if_neg hn] at h
          cases hj : env.join offset with
          | some e =>
            simp only [hj] at h
            simp only [Except.ok.injEq] at h
            subst h
            simp at hnone
          | none =>
            simp only [hj] at h
            obtain ⟨h1, h2, h3, h4, h5⟩ := ih _ _ out h hnone
            have hne : cl.instances ≠ [] := by
              intro hcontra
              rw [hcontra] at hh
              exact Option.noConfusion hh
            refine ⟨?_, ?_, h3, h4, h5⟩
            · simp only [List.length_append, List.length_cons, List.length_nil] at h1
              omega
            · rw [h2]
              show (cl.instances ++ [growInstance clName offset srv]).head? = some i0
              rw [List.head?_append_of_ne_nil cl.instances hne]
              exact hh

/-- C6: creating a cluster with size 0 is rejected, and every
successful creation of size k yields a non-stopped cluster of exactly
k members whose member 0 is the bootstrap node, named
`<name>-0`, its config callback invoked with num = 0 (recorded in
cbNum). -/
theorem C6_new_cluster (name : String) (env : ClusterEnv) :
    NewTestCluster name 0 env = .ok (.error (GoErr.msg "size must be at least 1")) ∧
    ∀ (k : Nat) (cl : TestCluster), NewTestCluster name k env = .ok (.ok cl) →
      cl.Size = k ∧ cl.Stopped = false ∧
      ∃ i0 rest, cl.instances = i0 :: rest ∧
        i0.name = name ++ "-" ++ toString 0 ∧ i0.cbNum = 0 := by
  constructor
  · simp [NewTestCluster]
  · intro k cl h
    by_cases hk : k = 0
    · subst hk
      simp [NewTestCluster] at h
    · rw [NewTestCluster, if_neg hk] at h
      cases hcr : env.create 0 with
      | error e =>
        simp only [hcr] at h
        simp at h
      | ok srv =>
        simp only [hcr] at h
        by_cases h1 : k = 1
        · subst h1
          rw [if_pos rfl] at h
          simp only [Except.ok.injEq] at h
          subst h
          exact ⟨rfl, rfl, growInstance name 0 srv, [], rfl, rfl, rfl⟩
        · rw [if_neg h1] at h
          by_cases hcap : 1 + (k - 1) > 255
          · have hgc : TestCluster.Grow
                { name := name, size := k, instances := [growInstance name 0 srv],
                  stopped := false } (k - 1) env =
                .ok { err := some (.capacity name 1 (k - 1)),
                      cluster := { name := name, size := k,
                                   instances := [growInstance name 0 srv],
                                   stopped := false },
                      failed := none } := by
              simp [TestCluster.Grow, hcap]
            simp only [hgc] at h
            simp at h
          · cases hg : TestCluster.Grow
                { name := name, size := k, instances := [growInstance name 0 srv],
                  stopped := false } (k - 1) env with
            | error p =>
              simp only [hg] at h
              exact Except.noConfusion h
            | ok gout =>
              simp only [hg] at h
              cases he : gout.err with
              | some e =>
                simp only [he] at h
                simp at h
              | none =>
                simp only [he] at h
                simp only [Except.ok.injEq] at h
                subst h
                rw [TestCluster.Grow] at hg
                rw [if_neg (by simp)] at hg
                rw [if_neg (by simpa using hcap)] at hg
                obtain ⟨h1, h2, h3, h4, h5⟩ := growLoop_none name env (k - 1) _ _ gout hg he
                refine ⟨?_, ?_, ?_⟩
                · simp only [List.length_cons, List.length_nil] at h1
                  simp only [TestCluster.Size, h1]
                  omega
                · simpa [TestCluster.Stopped] using h3
                · simp only [List.head?_cons] at h2
                  cases hin : gout.cluster.instances with
                  | nil =>
                    rw [hin] at h2
                    simp at h2
                  | cons a t =>
                    rw [hin] at h2
                    simp only [List.head?_cons, Option.some.injEq] at h2
                    exact ⟨a, t, rfl, by rw [h2]; rfl, by rw [h2]; rfl⟩

/-- C6 witness: the concrete environment creates a size-3 cluster with
exactly 3 members. -/
def cl6val : TestCluster :=
  { name := "w6", size := 3,
    instances := [growInstance "w6" 0 defaultServer, growInstance "w6" 1 defaultServer,
      growInstance "w6" 2 defaultServer],
    stopped := false }

/-- C6 witness theorem: the concrete creation of size 3 yields
Size() = 3. -/
theorem C6_new_cluster_w : cl6val.Size = 3 :=
  ((C6_new_cluster "w6" envOk).2 3 cl6val rfl).1

/-- The member instances a growth run starting at `offset` appends
after `i` fully successful iterations (creation outcomes drawn from the
environment). -/
def grownList (clName : String) (env : ClusterEnv) : Nat → Nat → List TestInstance
  | _, 0 => []
  | offset, i + 1 =>
    (match env.create offset with
     | .ok srv => [growInstance clName offset srv]
     | .error _ => []) ++ grownList clName env (offset + 1) i

theorem grownList_len (clName : String) (env : ClusterEnv) :
    ∀ (i offset : Nat), (∀ j, j < i → ∃ srv, env.create (offset + j) = .ok srv) →
      (grownList clName env offset i).length = i := by
  intro i
  induction i with
  | zero =>
    intro offset hcr
    simp [grownList]
  | succ i ih =>
    intro offset hcr
    obtain ⟨srv, hs⟩ := hcr 0 (Nat.succ_pos i)
    rw [Nat.add_zero] at hs
    have hrest : ∀ j, j < i → ∃ srv, env.create (offset + 1 + j) = .ok srv := by
      intro j hj
      have hretyped := hcr (j + 1) (by omega)
      rwa [show offset + (j + 1) = offset + 1 + j by omega] at hretyped
    rw [grownList]
    simp [hs, ih (offset + 1) hrest]

theorem grownList_cbNum (clName : String) (env : ClusterEnv) :
    ∀ (i offset : Nat) (ti : TestInstance), ti ∈ grownList clName env offset i →
      offset ≤ ti.cbNum ∧ ti.cbNum < offset + i := by
  intro i
  induction i with
  | zero =>
    intro offset ti hmem
    simp [grownList] at hmem
  | succ i ih =>
    intro offset ti hmem
    rw [grownList] at hmem
    rcases List.mem_append.mp hmem with hmem1 | hmem2
    · cases hs : env.create offset with
      | ok srv =>
        rw [hs] at hmem1
        simp at hmem1
        subst hmem1
        simp [growInstance]
      | error e =>
        rw [hs] at hmem1
        simp at hmem1
    · have := ih (offset + 1) ti hmem2
      omega

/-- When the first `i` growth iterations succeed (instance created and
joined) and iteration `i` creates its instance but fails the join, the
growth loop returns the joinFail error for the node at offset + i,
appends exactly the first i new members, and reports the failed node
stopped (server and client nil, torn down once), without appending
it. -/
theorem growLoop_join_fail (clName : String) (env : ClusterEnv) :
    ∀ (i : Nat) (cl : TestCluster) (i0 : TestInstance) (rest : List TestInstance)
      (offset k : Nat) (e : GoErr),
      cl.instances = i0 :: rest → i0.server.isSome = true → i < k →
      (∀ j, j ≤ i → ∃ srv, env.create (offset + j) = .ok srv) →
      (∀ j, j < i → env.join (offset + j) = none) →
      env.join (offset + i) = some e →
      growLoop clName env cl offset k =
        .ok { err := some (.joinFail clName (offset + i) e),
              cluster := { cl with instances := cl.instances ++ grownList clName env offset i },
              failed := some { name := clName ++ "-" ++ toString (offset + i),
                               cbNum := offset + i, server := none, client := none,
                               teardowns := 1 } } := by
  intro i
  induction i with
  | zero =>
    intro cl i0 rest offset k e hcl hlive hik hcr hj hf
    obtain ⟨k2, rfl⟩ : ∃ k2, k = k2 + 1 := ⟨k - 1, by omega⟩
    obtain ⟨srv, hs⟩ := hcr 0 (Nat.le_refl 0)
    rw [Nat.add_zero] at hs
    rw [Nat.add_zero] at hf
    have hh : cl.instances.head? = some i0 := by rw [hcl]; rfl
    have hnn : ¬ i0.server.isNone = true := by
      cases hsv : i0.server
      · rw [hsv] at hlive
        simp at hlive
      · simp [hsv]
    rw [growLoop]
    simp only [hs, hh, if_neg hnn, hf]
    rw [Nat.add_zero]
    simp only [grownList, List.append_nil]
    rfl
  | succ i ih =>
    intro cl i0 rest offset k e hcl hlive hik hcr hj hf
    obtain ⟨k2, rfl⟩ : ∃ k2, k = k2 + 1 := ⟨k - 1, by omega⟩
    obtain ⟨srv, hs⟩ := hcr 0 (by omega)
    rw [Nat.add_zero] at hs
    have hj0 : env.join offset = none := by
      have hretyped := hj 0 (by omega)
      rwa [Nat.add_zero] at hretyped
    have hh : cl.instances.head? = some i0 := by rw [hcl]; rfl
    have hnn : ¬ i0.server.isNone = true := by
      cases hsv : i0.server
      · rw [hsv] at hlive
        simp at hlive
      · simp [hsv]
    have hcl2 : (({ cl with
        instances := cl.instances ++ [growInstance clName offset srv] } : TestCluster)).instances
        = i0 :: (rest ++ [growInstance clName offset srv]) := by
      simp [hcl]
    have step := ih { cl with instances := cl.instances ++ [growInstance clName offset srv] }
      i0 (rest ++ [growInstance clName offset srv]) (offset + 1) k2 e hcl2 hlive (by omega)
      (fun j hjle => by
        have hretyped := hcr (j + 1) (by omega)
        rwa [show offset + (j + 1) = offset + 1 + j by omega] at hretyped)
      (fun j hjlt => by
        have hretyped := hj (j + 1) (by omega)
        rwa [show offset + (j + 1) = offset + 1 + j by omega] at hretyped)
      (by
        rwa [show offset + (i + 1) = offset + 1 + i by omega] at hf)
    rw [growLoop]
    simp only [hs, hh, if_neg hnn, hj0]
    rw [step]
    have harith : offset + 1 + i = offset + (i + 1) := by omega
    rw [harith]
    have hlists : (cl.instances ++ [growInstance clName offset srv]) ++
        grownList clName env (offset + 1) i = cl.instances ++ grownList clName env offset (i + 1) := by
      rw [List.append_assoc]
      rw [show grownList clName env offset (i + 1) =
        [growInstance clName offset srv] ++ grownList clName env (offset + 1) i from by
          rw [grownList]
          simp [hs]]
    simp only [hlists]

/-- C4: on a non-stopped cluster of size s with a live bootstrap member
and capacity for n more, when the first i increments of Grow(n) succeed and
the join for the node at offset s + i fails, Grow returns the joinFail
error, membership becomes exactly the original members followed by the
i successfully joined nodes (so Size() = s + i), and the freshly
created failed node is stopped immediately (torn down once, server and
client nil) and is not among the appended members. -/
theorem C4_grow_join_failure (cl : TestCluster) (env : ClusterEnv) (n i : Nat) (e : GoErr)
    (i0 : TestInstance) (rest : List TestInstance)
    (hstop : cl.Stopped = false)
    (hcl : cl.instances = i0 :: rest)
    (hlive : i0.server.isSome = true)
    (hcap : cl.Size + n ≤ 255)
    (hik : i < n)
    (hcr : ∀ j, j ≤ i → ∃ srv, env.create (cl.Size + j) = .ok srv)
    (hj : ∀ j, j < i → env.join (cl.Size + j) = none)
    (hf : env.join (cl.Size + i) = some e) :
    cl.Grow n env =
      .ok { err := some (.joinFail cl.name (cl.Size + i) e),
            cluster := { cl with instances := cl.instances ++ grownList cl.name env cl.Size i },
            failed := some { name := cl.name ++ "-" ++ toString (cl.Size + i),
                             cbNum := cl.Size + i, server := none, client := none,
                             teardowns := 1 } } ∧
    ({ cl with instances := cl.instances ++ grownList cl.name env cl.Size i } :
        TestCluster).Size = cl.Size + i ∧
    (∀ ti ∈ grownList cl.name env cl.Size i, ti.cbNum < cl.Size + i) := by
  have hstop2 : cl.stopped = false := hstop
  have hcap2 : ¬ cl.instances.length + n > 255 := by
    have : cl.instances.length + n ≤ 255 := hcap
    omega
  refine ⟨?_, ?_, ?_⟩
  · rw [TestCluster.Grow]
    rw [if_neg (by simp [hstop2])]
    rw [if_neg hcap2]
    exact growLoop_join_fail cl.name env i cl i0 rest cl.instances.length n e hcl hlive hik hcr hj hf
  · have hlen := grownList_len cl.name env i cl.Size (fun j hjlt => hcr j (by omega))
    simp only [TestCluster.Size] at hlen
    simp [TestCluster.Size, hlen]
  · intro ti hmem
    exact (grownList_cbNum cl.name env i cl.Size ti hmem).2

def envJF : ClusterEnv :=
  { create := fun _ => .ok defaultServer, join := fun _ => some (GoErr.msg "jf") }

/-- C4 witness: growing the concrete one-member cluster by 1 in an
environment whose join call fails returns the joinFail error for
offset 1, leaves the membership unchanged, and reports the failed
freshly created node stopped. -/
theorem C4_grow_join_failure_w :
    TestCluster.Grow oneCl 1 envJF =
      .ok { err := some (GoErr.joinFail "c" 1 (GoErr.msg "jf")),
            cluster := oneCl,
            failed := some { name := "c-1", cbNum := 1, server := none, client := none,
                             teardowns := 1 } } :=
  (C4_grow_join_failure oneCl envJF 1 0 (GoErr.msg "jf") liveInst [] rfl rfl rfl (by decide)
    (by decide) (fun j hjle => ⟨defaultServer, rfl⟩)
    (fun j hjlt => absurd hjlt (Nat.not_lt_zero j)) rfl).1

end Agentman
